import Mathlib

/-!
Verification of the query-answering workflow of `ContosoSearchPlugin`
(file `src/Python/src/plugins/ContosoSearchPlugin.py`).

The Python class orchestrates three remote HTTP interactions (embedding,
document search, chat completion) around pure string processing.  The
shallow embedding below represents the outcome of each outbound
interaction by a field of an `Env` record (success carries the parsed
response, failure carries the exception message), and every method of the
class becomes a total Lean function of the `Env`.  A raised Python
exception is modelled by the `Except.error` constructor carrying the
exception message; a function that can never raise is total into its
result type.

Python string primitives used by the code (`split`, `strip`, `lower`,
`in`, `join`) are modelled by executable functions over `List Char`,
mirroring their documented behaviour, and lifted to `String` via its
character-list representation.
-/

/-- Exception messages of raised Python exceptions. -/
abbrev PyErr := String

/-! ### Python string primitives, at character-list level -/

/-- Lowercase one character; the code only relies on ASCII behaviour of
Python `str.lower`. -/
def lowerChar (c : Char) : Char :=
  if 'A' ≤ c && c ≤ 'Z' then Char.ofNat (c.toNat + 32) else c

/-- Python `s.lower()` on the characters of `s`. -/
def lowerChars (l : List Char) : List Char := l.map lowerChar

/-- Python whitespace stripped by `str.strip()` (ASCII part). -/
def isSpaceChar (c : Char) : Bool :=
  c == ' ' || c == '\t' || c == '\n' || c == '\r' ||
  c == Char.ofNat 11 || c == Char.ofNat 12

/-- Python `s.strip()`: drop leading and trailing whitespace. -/
def stripChars (l : List Char) : List Char :=
  (((l.dropWhile isSpaceChar).reverse).dropWhile isSpaceChar).reverse

/-- Does the list begin with `pat`?  (Helper for substring search.) -/
def leadsWith : List Char → List Char → Bool
  | [], _ => true
  | _ :: _, [] => false
  | p :: ps, c :: cs => p == c && leadsWith ps cs

/-- Python `pat in l` for strings: `pat` occurs contiguously in `l`. -/
def hasSub : List Char → List Char → Bool
  | pat, [] => pat.isEmpty
  | pat, c :: cs => leadsWith pat (c :: cs) || hasSub pat cs

/-- Python `content.split(".")`: split at every period, keeping empty
pieces, so the result is always non-empty. -/
def splitDot : List Char → List (List Char)
  | [] => [[]]
  | c :: cs =>
    if c = '.' then [] :: splitDot cs
    else
      match splitDot cs with
      | [] => [[c]]
      | h :: t => (c :: h) :: t

/-- Python `sep.join(parts)`. -/
def joinSep (sep : List Char) : List (List Char) → List Char
  | [] => []
  | [x] => x
  | x :: y :: t => x ++ sep ++ joinSep sep (y :: t)

/-! ### The same primitives lifted to `String` -/

/-- Python `s.lower()`. -/
def pyLowerStr (s : String) : String := String.mk (lowerChars s.data)

/-- Python `s.strip()`. -/
def pyStripStr (s : String) : String := String.mk (stripChars s.data)

/-- Python `needle in hay` for strings. -/
def pyIn (needle hay : String) : Bool := hasSub needle.data hay.data

/-- Python `sep.join(parts)`. -/
def pyJoin (sep : String) (parts : List String) : String :=
  String.mk (joinSep sep.data (parts.map String.data))

/-! ### `extract_relevant_sentences` (source lines 253-266) -/

/-- The keyword test applied to a (stripped) sentence: Python
`any(keyword.lower() in sentence.lower() for keyword in keywords)`. -/
def sentenceMatches (keywords : List (List Char)) (s : List Char) : Bool :=
  keywords.any (fun k => hasSub (lowerChars k) (lowerChars s))

/-- The `relevant_sentences` list built by the loop of
`extract_relevant_sentences`: split on periods, strip each sentence, keep
the ones containing a keyword case-insensitively, in original order. -/
def keptSentences (content : List Char) (keywords : List (List Char)) : List (List Char) :=
  ((splitDot content).map stripChars).filter (sentenceMatches keywords)

/-- Character-level body of `extract_relevant_sentences`: if some sentence
matched, join the first three kept sentences with `". "` and a trailing
period; otherwise return the content unchanged. -/
def extractRel (content : List Char) (keywords : List (List Char)) : List Char :=
  if (keptSentences content keywords).isEmpty then content
  else joinSep ('.' :: ' ' :: []) ((keptSentences content keywords).take 3) ++ ('.' :: [])

/-- `extract_relevant_sentences(content, keywords)` of the source. -/
def extract_relevant_sentences (content : String) (keywords : List String) : String :=
  String.mk (extractRel content.data (keywords.map String.data))

/-! ### JSON values and Python-style access

`requests.Response.json()` yields a parsed JSON document; subscripting a
dict raises `KeyError` for a missing key and `TypeError` on a non-dict,
subscripting a list raises `IndexError` out of range. -/

/-- Parsed JSON documents returned by the OpenAI HTTP endpoints. -/
inductive Json where
  | null : Json
  | num : Int → Json
  | str : String → Json
  | arr : List Json → Json
  | obj : List (String × Json) → Json

/-- Python `j[k]` on a parsed JSON value, for a string key. -/
def Json.getKey (j : Json) (k : String) : Except PyErr Json :=
  match j with
  | .obj fields =>
    match fields.lookup k with
    | some v => Except.ok v
    | none => Except.error ("KeyError: " ++ k)
  | _ => Except.error ("TypeError: value is not subscriptable by key " ++ k)

/-- Python `j[i]` on a parsed JSON value, for an integer index. -/
def Json.getIdx (j : Json) (i : Nat) : Except PyErr Json :=
  match j with
  | .arr xs =>
    match xs.get? i with
    | some v => Except.ok v
    | none => Except.error "IndexError: list index out of range"
  | _ => Except.error "TypeError: value is not subscriptable by index"

/-! ### The environment: outcomes of the outbound interactions

Each field is the outcome of one remote interaction as observed by the
Python code: `Except.ok` carries the parsed response
(`response.raise_for_status()` passed and `response.json()` parsed), and
`Except.error` carries the message of the exception raised by the HTTP
call, by `raise_for_status`, or by response parsing.  The two search
fields are the outcomes of the first (filtered) call to
`search_client.search` and of the fallback (unfiltered) call, including
iteration over the returned documents; each returned document is a
mapping from field names to values (values are carried opaquely as
strings, since the code only moves them around or treats content as
text). -/

/-- One raw document returned by the search service. -/
abbrev SearchHit := List (String × String)

/-- One formatted result built by `search_documents` (an insertion-ordered
dict). -/
abbrev SearchResult := List (String × String)

/-- Outcomes of the remote interactions during one call. -/
structure Env where
  embedPost : Except PyErr Json
  chatPost : Except PyErr Json
  search1 : Except PyErr (List SearchHit)
  search2 : Except PyErr (List SearchHit)

/-! ### `generate_embedding` (source lines 37-57) -/

/-- `embedding_data["data"][0]["embedding"]` of the parsed response. -/
def embExtract (j : Json) : Except PyErr Json := do
  let d ← j.getKey "data"
  let d0 ← d.getIdx 0
  d0.getKey "embedding"

/-- `generate_embedding(text)`.  The second component counts the HTTP
requests issued.  Empty text raises `ValueError` (the spec name
`InvalidInput`) before any request; any failure of the request or of
response parsing is re-raised with the `Failed to generate embedding:`
prefix. -/
def generate_embedding (env : Env) (text : String) : Except PyErr Json × Nat :=
  if text = "" then (Except.error "Input text cannot be empty", 0)
  else
    match env.embedPost with
    | Except.error e => (Except.error ("Failed to generate embedding: " ++ e), 1)
    | Except.ok j =>
      match embExtract j with
      | Except.error e => (Except.error ("Failed to generate embedding: " ++ e), 1)
      | Except.ok v => (Except.ok v, 1)

/-! ### `rephrase_with_chat_model` (source lines 59-108) -/

/-- `result["choices"][0]["message"]["content"]`, which must be a string
for the subsequent `.strip()` (a non-string raises `AttributeError`). -/
def chatExtract (j : Json) : Except PyErr String := do
  let c ← j.getKey "choices"
  let c0 ← c.getIdx 0
  let m ← c0.getKey "message"
  let ct ← m.getKey "content"
  match ct with
  | Json.str s => Except.ok s
  | _ => Except.error "AttributeError: value has no attribute strip"

/-- The chat call followed by extraction of the generated text (the body
of the `try` block, before `.strip()`). -/
def chatOutcome (env : Env) : Except PyErr String :=
  match env.chatPost with
  | Except.error e => Except.error e
  | Except.ok j => chatExtract j

/-- `rephrase_with_chat_model(content, query)`: on success the generated
text stripped of surrounding whitespace; on any failure the original
`content`, unchanged. -/
def rephrase_with_chat_model (env : Env) (content : String) (_query : String) : String :=
  match chatOutcome env with
  | Except.ok s => pyStripStr s
  | Except.error _ => content

/-! ### `search_documents` (source lines 110-183) -/

/-- The whitelist of optional fields copied from a hit (source line 151). -/
def resultFields : List String :=
  ["chunk_id", "content", "title", "url", "filepath", "parent_id"]

/-- Format one hit: the relevance score (a missing `@search.score` key
raises `KeyError`) followed by whichever whitelisted fields are present,
in whitelist order. -/
def formatHit (hit : SearchHit) : Except PyErr SearchResult :=
  match hit.lookup "@search.score" with
  | none => Except.error "KeyError: @search.score"
  | some sc =>
    Except.ok (("score", sc) ::
      resultFields.filterMap (fun f => (hit.lookup f).map (fun v => (f, v))))

/-- Format all hits in service order, failing at the first bad hit. -/
def formatResults : List SearchHit → Except PyErr (List SearchResult)
  | [] => Except.ok []
  | h :: t => do
    let r ← formatHit h
    let rs ← formatResults t
    Except.ok (r :: rs)

/-- The body of the outer `try` of `search_documents`: embed the query,
issue the filtered search, format the hits. -/
def searchTryMain (env : Env) (query : String) : Except PyErr (List SearchResult) := do
  let _emb ← (generate_embedding env query).1
  let hits ← env.search1
  formatResults hits

/-- Did `generate_embedding` raise inside `search_documents`?  Exactly in
that case the local `vector_query` is never assigned. -/
def embedFails (env : Env) (query : String) : Bool :=
  match (generate_embedding env query).1 with
  | Except.error _ => true
  | Except.ok _ => false

/-- Message of the `UnboundLocalError` raised when the fallback search
references `vector_query` although the first branch failed before
assigning it. -/
def unboundVectorQueryMsg : PyErr :=
  "UnboundLocalError: local variable vector_query referenced before assignment"

/-- The inner `try` of the `except` branch of `search_documents`: the
unfiltered retry.  Referencing `vector_query` raises `UnboundLocalError`
when the first branch failed before its assignment, i.e. exactly when
embedding generation raised; that error is raised inside the inner `try`
and is therefore caught by the inner handler like any other failure. -/
def searchRetry (env : Env) (query : String) : Except PyErr (List SearchResult) :=
  if embedFails env query then Except.error unboundVectorQueryMsg
  else do
    let hits ← env.search2
    formatResults hits

/-- `search_documents(query, top)`: the filtered attempt, then on any
failure the unfiltered retry, whose own failure is re-raised with the
`Search failed:` prefix (the `SearchServiceError` of the spec). -/
def search_documents (env : Env) (query : String) (_top : Nat) :
    Except PyErr (List SearchResult) :=
  match searchTryMain env query with
  | Except.ok r => Except.ok r
  | Except.error _ =>
    match searchRetry env query with
    | Except.ok r => Except.ok r
    | Except.error e2 => Except.error ("Search failed: " ++ e2)

/-! ### `query_handbook` (source lines 185-251) -/

/-- Header selection (source lines 194-208): five keyword groups tested in
order against the lowercased query; the generic header interpolates the
original query between single quotes. -/
def query_handbook_header (query : String) : String :=
  let query_lower := pyLowerStr query
  if ["data security", "security policy", "information security"].any
      (fun k => pyIn k query_lower) then
    "**Contoso Data Security Policy Information:**\n\n"
  else if ["vacation", "pto", "time off", "leave"].any
      (fun k => pyIn k query_lower) then
    "**Contoso Vacation and Time Off Policy:**\n\n"
  else if ["confidential", "confidentiality"].any
      (fun k => pyIn k query_lower) then
    "**Contoso Confidentiality Guidelines:**\n\n"
  else if ["remote work", "work from home", "telework"].any
      (fun k => pyIn k query_lower) then
    "**Contoso Remote Work Policy:**\n\n"
  else if ["benefits", "health", "insurance"].any
      (fun k => pyIn k query_lower) then
    "**Contoso Employee Benefits:**\n\n"
  else
    "**Information from Contoso Employee Handbook regarding \x27" ++ query
      ++ "\x27:**\n\n"

/-- Keyword list used to narrow content for security questions
(source line 218). -/
def securityKeywords : List String :=
  ["password", "encryption", "access", "confidential", "protect", "secure",
   "data handling", "classification"]

/-- Keyword list used to narrow content for vacation questions
(source line 225). -/
def vacationKeywords : List String :=
  ["days", "hours", "request", "approval", "accrual", "balance", "holiday"]

/-- Per-result content processing (source lines 212-230): take the
`content` field (default `No content available`), and narrow it with
`extract_relevant_sentences` when the lowercased query contains
`data security` or `security policy` (security keywords), else when it
contains `vacation` or `pto` (vacation keywords); the narrowed text
replaces the content only when it is non-empty. -/
def processResultContent (query_lower : String) (result : SearchResult) : String :=
  let content := (result.lookup "content").getD "No content available"
  if pyIn "data security" query_lower || pyIn "security policy" query_lower then
    let relevant_sentences := extract_relevant_sentences content securityKeywords
    if relevant_sentences ≠ "" then relevant_sentences else content
  else if pyIn "vacation" query_lower || pyIn "pto" query_lower then
    let relevant_sentences := extract_relevant_sentences content vacationKeywords
    if relevant_sentences ≠ "" then relevant_sentences else content
  else content

/-- Python truthiness of `result.get(key)`: a present, non-empty value. -/
def truthyGet (r : SearchResult) (k : String) : Option String :=
  match r.lookup k with
  | some v => if v = "" then none else some v
  | none => none

/-- One line of the `Sources` section for result number `i` (counted from
1): its title if truthy, else its url if truthy, else the generic
placeholder. -/
def sourceLine (i : Nat) (r : SearchResult) : String :=
  match truthyGet r "title" with
  | some t => "- " ++ t ++ "\n"
  | none =>
    match truthyGet r "url" with
    | some u => "- " ++ u ++ "\n"
    | none => "- Employee Handbook Section " ++ toString i ++ "\n"

/-- The `Sources` loop (source lines 240-246), numbering from `i`. -/
def sourcesOf (i : Nat) : List SearchResult → String
  | [] => ""
  | r :: rest => sourceLine i r ++ sourcesOf (i + 1) rest

/-- `query_handbook(query, top)`: retrieve results, return the fixed
message when none, otherwise header plus rephrased combined content plus
sources; any exception escaping the flow is converted into the
`Error querying the Contoso Handbook:` string.  The function is total
into `String`: no failure propagates to the caller. -/
def query_handbook (env : Env) (query : String) (top : Nat) : String :=
  match search_documents env query top with
  | Except.error e => "Error querying the Contoso Handbook: " ++ e
  | Except.ok results =>
    if results.isEmpty then "No relevant information found in the Contoso Handbook."
    else
      let query_lower := pyLowerStr query
      let response := query_handbook_header query
      let all_content := results.map (processResultContent query_lower)
      let combined_content := pyJoin "\n\n" all_content
      let rephrased_content := rephrase_with_chat_model env combined_content query
      response ++ rephrased_content ++ "\n\n**Sources:**\n" ++ sourcesOf 1 results

/-! ### The five header topic groups, as an ordered table

Used to state that header selection is first-match-wins over the groups in
source order. -/

/-- The five keyword groups of the header selection, paired with their
headers, in the order the source tests them. -/
def headerGroups : List (List String × String) :=
  [ (["data security", "security policy", "information security"],
     "**Contoso Data Security Policy Information:**\n\n"),
    (["vacation", "pto", "time off", "leave"],
     "**Contoso Vacation and Time Off Policy:**\n\n"),
    (["confidential", "confidentiality"],
     "**Contoso Confidentiality Guidelines:**\n\n"),
    (["remote work", "work from home", "telework"],
     "**Contoso Remote Work Policy:**\n\n"),
    (["benefits", "health", "insurance"],
     "**Contoso Employee Benefits:**\n\n") ]

/-! ### Concrete environments used by witnesses and counterexamples -/

/-- A well-formed embedding response: `{"data": [{"embedding": [1, 2]}]}`. -/
def goodEmbedJson : Json :=
  Json.obj [("data", Json.arr [Json.obj [("embedding", Json.arr [Json.num 1, Json.num 2])]])]

/-- The vector carried at `data[0].embedding` of `goodEmbedJson`. -/
def embVec : Json := Json.arr [Json.num 1, Json.num 2]

/-- Embedding works, both search calls fail. -/
def envC1 : Env :=
  { embedPost := Except.ok goodEmbedJson
    chatPost := Except.error "chat unreachable"
    search1 := Except.error "net1"
    search2 := Except.error "net2" }

/-- A raw hit and its formatted result for the fallback-success scenario. -/
def hitC2 : SearchHit := [("@search.score", "0.8"), ("content", "Policy text."), ("title", "Handbook")]

/-- `hitC2` after formatting by `search_documents`. -/
def resC2 : SearchResult := [("score", "0.8"), ("content", "Policy text."), ("title", "Handbook")]

/-- Embedding works, the filtered search fails, the unfiltered retry
returns one document. -/
def envC2 : Env :=
  { embedPost := Except.ok goodEmbedJson
    chatPost := Except.error "chat unreachable"
    search1 := Except.error "primary down"
    search2 := Except.ok [hitC2] }

/-- Embedding generation itself fails; the unfiltered search service
would even be reachable. -/
def envC3 : Env :=
  { embedPost := Except.error "connection refused"
    chatPost := Except.error "chat unreachable"
    search1 := Except.error "unreached"
    search2 := Except.ok [] }

/-- A raw hit and its formatted result for the chat-failure scenario. -/
def hitC4 : SearchHit := [("@search.score", "0.9"), ("content", "Policy text.")]

/-- `hitC4` after formatting by `search_documents`. -/
def resC4 : SearchResult := [("score", "0.9"), ("content", "Policy text.")]

/-- Search succeeds with one document, the chat rephrasing call fails. -/
def envC4 : Env :=
  { embedPost := Except.ok goodEmbedJson
    chatPost := Except.error "chat unreachable"
    search1 := Except.ok [hitC4]
    search2 := Except.error "unused" }

/-- Content whose security narrowing differs from the content itself. -/
def cC6 : String := "Use encryption. Bananas are yellow."

/-- A raw hit carrying `cC6` as its content. -/
def hitC6 : SearchHit := [("@search.score", "0.9"), ("content", cC6)]

/-- Search returns `hitC6`; the chat call fails, so the final response
carries the concatenated content verbatim. -/
def envC6 : Env :=
  { embedPost := Except.ok goodEmbedJson
    chatPost := Except.error "chat unreachable"
    search1 := Except.ok [hitC6]
    search2 := Except.error "unused" }

/-- A search service returning exactly one document with content `c` (and
a failing chat service), for stating how `query_handbook` shapes a single
result for an arbitrary query. -/
def oneHitEnv (c : String) : Env :=
  { embedPost := Except.ok goodEmbedJson
    chatPost := Except.error "chat unreachable"
    search1 := Except.ok [[("@search.score", "1.0"), ("content", c)]]
    search2 := Except.error "unused" }

/-- Environment for exercising `generate_embedding` alone. -/
def envC8 : Env :=
  { embedPost := Except.ok goodEmbedJson
    chatPost := Except.error "chat unreachable"
    search1 := Except.error "unused"
    search2 := Except.error "unused" }

/-- Embedding works and the filtered search returns no documents. -/
def envC9 : Env :=
  { embedPost := Except.ok goodEmbedJson
    chatPost := Except.error "chat unreachable"
    search1 := Except.ok []
    search2 := Except.error "unused" }

/-! ### Helper lemmas about the string primitives -/

theorem stripChars_eq_rdrop (l : List Char) :
    stripChars l = List.rdropWhile isSpaceChar (l.dropWhile isSpaceChar) := rfl

theorem stripChars_nil : stripChars [] = [] := rfl

theorem stripChars_cons_space {c : Char} (h : isSpaceChar c = true) (l : List Char) :
    stripChars (c :: l) = stripChars l := by
  rw [stripChars_eq_rdrop, stripChars_eq_rdrop, List.dropWhile_cons_of_pos h]

theorem mem_stripChars {x : Char} {l : List Char} (h : x ∈ stripChars l) : x ∈ l := by
  rw [stripChars_eq_rdrop] at h
  have hpre := List.rdropWhile_prefix isSpaceChar (l.dropWhile isSpaceChar)
  exact (List.dropWhile_suffix isSpaceChar).sublist.subset (hpre.sublist.subset h)

theorem dropWhile_stripChars (l : List Char) :
    List.dropWhile isSpaceChar (stripChars l) = stripChars l := by
  rw [stripChars_eq_rdrop]
  rcases hp : List.rdropWhile isSpaceChar (l.dropWhile isSpaceChar) with _ | ⟨a, t⟩
  · rfl
  · obtain ⟨u, hu⟩ := List.rdropWhile_prefix isSpaceChar (l.dropWhile isSpaceChar)
    rw [hp] at hu
    have ha : isSpaceChar a = false := by
      have hd := List.dropWhile_idempotent isSpaceChar l
      rw [← hu] at hd
      by_contra hcon
      rw [Bool.not_eq_false] at hcon
      rw [List.cons_append, List.dropWhile_cons_of_pos hcon] at hd
      have := (List.dropWhile_suffix (l := t ++ u) isSpaceChar).sublist.length_le
      rw [hd] at this
      simp at this
    rw [List.dropWhile_cons_of_neg (by simp [ha])]

theorem stripChars_idem (l : List Char) : stripChars (stripChars l) = stripChars l := by
  rw [stripChars_eq_rdrop (stripChars l), dropWhile_stripChars, stripChars_eq_rdrop,
    List.rdropWhile_idempotent]

/-! ### Helper lemmas about `splitDot` -/

theorem splitDot_cons_dot (cs : List Char) : splitDot ('.' :: cs) = [] :: splitDot cs := by
  simp [splitDot]

theorem splitDot_cons_ne {c : Char} (hc : ¬c = '.') (cs : List Char) :
    splitDot (c :: cs) =
      match splitDot cs with
      | [] => [[c]]
      | h :: t => (c :: h) :: t := by
  simp [splitDot, hc]

theorem splitDot_no_dot : ∀ {l : List Char}, ∀ x ∈ splitDot l, '.' ∉ x := by
  intro l
  induction l with
  | nil =>
    intro x hx
    simp only [splitDot, List.mem_singleton] at hx
    simp [hx]
  | cons c cs ih =>
    intro x hx
    by_cases hc : c = '.'
    · subst hc
      rw [splitDot_cons_dot, List.mem_cons] at hx
      rcases hx with hx | hx
      · subst hx
        simp
      · exact ih x hx
    · rw [splitDot_cons_ne hc] at hx
      cases hsp : splitDot cs with
      | nil =>
        rw [hsp] at hx
        simp only [List.mem_singleton] at hx
        subst hx
        exact fun hh => hc (List.mem_singleton.mp hh).symm
      | cons h t =>
        rw [hsp] at hx
        rcases List.mem_cons.mp hx with rfl | hmem
        · intro hdot
          rcases List.mem_cons.mp hdot with hh | hh
          · exact hc hh.symm
          · exact ih h (by rw [hsp]; exact List.mem_cons_self h t) hh
        · exact ih x (by rw [hsp]; exact List.mem_cons_of_mem h hmem)

theorem splitDot_append {a : List Char} (ha : '.' ∉ a) (b : List Char) :
    splitDot (a ++ '.' :: b) = a :: splitDot b := by
  induction a with
  | nil => simp [splitDot]
  | cons x a2 ih =>
    have hx : ¬(x = '.') := fun h => ha (by simp [h])
    have ha2 : '.' ∉ a2 := fun h => ha (List.mem_cons_of_mem _ h)
    rw [List.cons_append, splitDot_cons_ne hx, ih ha2]

/-! ### Helper lemmas about `sentenceMatches` -/

theorem sentenceMatches_nil_false {kws : List (List Char)}
    (hk : ∀ k ∈ kws, k ≠ []) : sentenceMatches kws [] = false := by
  rw [sentenceMatches, List.any_eq_false]
  intro k hkm
  cases hkc : lowerChars k with
  | nil => exact absurd (List.map_eq_nil_iff.mp hkc) (hk k hkm)
  | cons a t => simp [show lowerChars [] = ([] : List Char) from rfl, hkc, hasSub]

theorem sentenceMatches_ne_nil {kws : List (List Char)} {x : List Char}
    (hk : ∀ k ∈ kws, k ≠ []) (h : sentenceMatches kws x = true) : x ≠ [] := by
  intro hx
  subst hx
  rw [sentenceMatches_nil_false hk] at h
  exact Bool.noConfusion h

/-! ### Helper lemmas about `keptSentences` and `extractRel` -/

theorem mem_keptSentences {x c : List Char} {kws : List (List Char)}
    (h : x ∈ keptSentences c kws) :
    (∃ s ∈ splitDot c, stripChars s = x) ∧ sentenceMatches kws x = true := by
  rw [keptSentences] at h
  have h2 := List.mem_filter.mp h
  refine ⟨?_, h2.2⟩
  obtain ⟨s, hs, hx⟩ := List.mem_map.mp h2.1
  exact ⟨s, hs, hx⟩

/-- An output of the joining branch of `extractRel` is a fixed point of
`extractRel`: splitting it at the periods recovers exactly the joined
sentences (plus one empty trailing piece), each of which still matches. -/
theorem extractRel_join_fixed (kws : List (List Char)) (hk : ∀ k ∈ kws, k ≠ [])
    (L : List (List Char)) (hne : L ≠ []) (hlen : L.length ≤ 3)
    (hstrip : ∀ x ∈ L, stripChars x = x)
    (hdot : ∀ x ∈ L, '.' ∉ x)
    (hmatch : ∀ x ∈ L, sentenceMatches kws x = true) :
    extractRel (joinSep ('.' :: ' ' :: []) L ++ '.' :: []) kws
      = joinSep ('.' :: ' ' :: []) L ++ '.' :: [] := by
  have hsp : isSpaceChar ' ' = true := rfl
  rcases L with _ | ⟨a, _ | ⟨b, _ | ⟨c, _ | ⟨d, T⟩⟩⟩⟩
  · exact absurd rfl hne
  · show extractRel (a ++ '.' :: []) kws = a ++ '.' :: []
    have hkept : keptSentences (a ++ '.' :: []) kws = [a] := by
      rw [keptSentences, splitDot_append (hdot a (by simp))]
      simp [splitDot, hstrip a (by simp), hmatch a (by simp), stripChars_nil,
        sentenceMatches_nil_false hk]
    simp only [extractRel, hkept]
    simp [joinSep]
  · have hdb : '.' ∉ (' ' :: b) := by
      intro hmem
      rcases List.mem_cons.mp hmem with h1 | h1
      · exact absurd h1 (by decide)
      · exact hdot b (by simp) h1
    have e2 : joinSep ('.' :: ' ' :: []) [a, b] ++ '.' :: []
        = a ++ '.' :: ((' ' :: b) ++ '.' :: []) := by
      simp [joinSep]
    rw [e2]
    have hkept : keptSentences (a ++ '.' :: ((' ' :: b) ++ '.' :: [])) kws = [a, b] := by
      rw [keptSentences, splitDot_append (hdot a (by simp)), splitDot_append hdb]
      simp [splitDot, hstrip a (by simp), hstrip b (by simp), stripChars_cons_space hsp,
        hmatch a (by simp), hmatch b (by simp), stripChars_nil,
        sentenceMatches_nil_false hk]
    simp only [extractRel, hkept]
    simp [joinSep]
  · have hdb : '.' ∉ (' ' :: b) := by
      intro hmem
      rcases List.mem_cons.mp hmem with h1 | h1
      · exact absurd h1 (by decide)
      · exact hdot b (by simp) h1
    have hdc : '.' ∉ (' ' :: c) := by
      intro hmem
      rcases List.mem_cons.mp hmem with h1 | h1
      · exact absurd h1 (by decide)
      · exact hdot c (by simp) h1
    have e3 : joinSep ('.' :: ' ' :: []) [a, b, c] ++ '.' :: []
        = a ++ '.' :: ((' ' :: b) ++ '.' :: ((' ' :: c) ++ '.' :: [])) := by
      simp [joinSep]
    rw [e3]
    have hkept : keptSentences
        (a ++ '.' :: ((' ' :: b) ++ '.' :: ((' ' :: c) ++ '.' :: []))) kws
        = [a, b, c] := by
      rw [keptSentences, splitDot_append (hdot a (by simp)), splitDot_append hdb,
        splitDot_append hdc]
      simp [splitDot, hstrip a (by simp), hstrip b (by simp), hstrip c (by simp),
        stripChars_cons_space hsp, hmatch a (by simp), hmatch b (by simp),
        hmatch c (by simp), stripChars_nil, sentenceMatches_nil_false hk]
    simp only [extractRel, hkept]
    simp [joinSep]
  · exfalso
    simp only [List.length_cons] at hlen
    omega

/-- Idempotence of the character-level extraction, for non-empty
keywords. -/
theorem extractRel_idem (c : List Char) (kws : List (List Char))
    (hk : ∀ k ∈ kws, k ≠ []) :
    extractRel (extractRel c kws) kws = extractRel c kws := by
  cases hR : keptSentences c kws with
  | nil =>
    have h1 : extractRel c kws = c := by simp [extractRel, hR]
    rw [h1]
    exact h1
  | cons k1 rest =>
    have hout : extractRel c kws
        = joinSep ('.' :: ' ' :: []) ((k1 :: rest).take 3) ++ '.' :: [] := by
      simp [extractRel, hR]
    have hsub : ∀ x ∈ (k1 :: rest).take 3, x ∈ keptSentences c kws := by
      intro x hx
      rw [hR]
      exact List.take_subset 3 _ hx
    have hstrip : ∀ x ∈ (k1 :: rest).take 3, stripChars x = x := by
      intro x hx
      obtain ⟨⟨s, -, hsx⟩, -⟩ := mem_keptSentences (hsub x hx)
      rw [← hsx]
      exact stripChars_idem s
    have hdot : ∀ x ∈ (k1 :: rest).take 3, '.' ∉ x := by
      intro x hx
      obtain ⟨⟨s, hs, hsx⟩, -⟩ := mem_keptSentences (hsub x hx)
      intro hdm
      rw [← hsx] at hdm
      exact splitDot_no_dot s hs (mem_stripChars hdm)
    have hmatch : ∀ x ∈ (k1 :: rest).take 3, sentenceMatches kws x = true := by
      intro x hx
      exact (mem_keptSentences (hsub x hx)).2
    have hne : (k1 :: rest).take 3 ≠ [] := by simp
    have hlen : ((k1 :: rest).take 3).length ≤ 3 := by
      rw [List.length_take]
      exact min_le_left _ _
    rw [hout]
    exact extractRel_join_fixed kws hk _ hne hlen hstrip hdot hmatch

/-! ### Further small helper lemmas -/

theorem pyJoin_single (sep : String) (x : String) : pyJoin sep [x] = x := rfl

theorem searchTryMain_of_embed_error {env : Env} {q : String} {e : PyErr}
    (h : (generate_embedding env q).1 = Except.error e) :
    searchTryMain env q = Except.error e := by
  rw [searchTryMain]
  show ((generate_embedding env q).1 >>= fun _ => env.search1 >>= formatResults)
      = Except.error e
  rw [h]
  rfl

theorem embedFails_true_of_error {env : Env} {q : String} {e : PyErr}
    (h : (generate_embedding env q).1 = Except.error e) :
    embedFails env q = true := by
  rw [embedFails, h]

/-! ### The claims -/

/-- C1: `query_handbook` never raises: it is a total function into
`String`, and whenever `search_documents` fails (any step of the flow —
embedding, filtered and unfiltered search, result formatting — raising),
the returned string is exactly the error prefixed by
`Error querying the Contoso Handbook: `; in particular, when embedding
succeeded but both the filtered and the unfiltered search calls fail,
`search_documents` fails with the `Search failed:`-wrapped
`SearchServiceError` and `query_handbook` converts it into such a
string. -/
theorem C1_query_handbook_error_reporting (env : Env) (q : String) (t : Nat) :
    (∀ e, search_documents env q t = Except.error e →
      query_handbook env q t = "Error querying the Contoso Handbook: " ++ e)
    ∧ (∀ a b, embedFails env q = false → env.search1 = Except.error a →
        env.search2 = Except.error b →
        search_documents env q t = Except.error ("Search failed: " ++ b)
        ∧ query_handbook env q t
            = "Error querying the Contoso Handbook: " ++ ("Search failed: " ++ b)) := by
  constructor
  · intro e he
    rw [query_handbook, he]
  · intro a b hemb h1 h2
    have hv : ∃ v, (generate_embedding env q).1 = Except.ok v := by
      cases hg : (generate_embedding env q).1 with
      | error e => rw [embedFails, hg] at hemb; exact Bool.noConfusion hemb
      | ok v => exact ⟨v, rfl⟩
    obtain ⟨v, hv⟩ := hv
    have hmain : searchTryMain env q = Except.error a := by
      rw [searchTryMain]
      show ((generate_embedding env q).1 >>= fun _ => env.search1 >>= formatResults)
          = Except.error a
      rw [hv, h1]
      rfl
    have hretry : searchRetry env q = Except.error b := by
      rw [searchRetry, hemb]
      show (if false = true then Except.error unboundVectorQueryMsg
            else env.search2 >>= formatResults) = Except.error b
      rw [if_neg (by simp), h2]
      rfl
    have hsd : search_documents env q t = Except.error ("Search failed: " ++ b) := by
      rw [search_documents, hmain, hretry]
    exact ⟨hsd, by rw [query_handbook, hsd]⟩

/-- C1 witness: with a working embedding service and both search calls
failing, the returned string is the prefixed error text. -/
theorem C1_witness :
    search_documents envC1 "q" 3 = Except.error ("Search failed: " ++ "net2")
    ∧ query_handbook envC1 "q" 3
        = "Error querying the Contoso Handbook: " ++ ("Search failed: " ++ "net2") :=
  (C1_query_handbook_error_reporting envC1 "q" 3).2 "net1" "net2" rfl rfl rfl

/-- C2: whenever the first (filtered) search attempt fails for any reason
after the embedding was computed, and the unfiltered retry succeeds (the
service answers and every hit formats), `search_documents` returns the
formatted unfiltered results — score plus the whitelisted fields that are
present, in service order — instead of raising. -/
theorem C2_unfiltered_fallback (env : Env) (q : String) (t : Nat) (e : PyErr)
    (hits : List SearchHit) (r : List SearchResult)
    (hfail : searchTryMain env q = Except.error e)
    (hemb : embedFails env q = false)
    (h2 : env.search2 = Except.ok hits)
    (hfmt : formatResults hits = Except.ok r) :
    search_documents env q t = Except.ok r := by
  have hretry : searchRetry env q = Except.ok r := by
    rw [searchRetry, hemb]
    show (if false = true then Except.error unboundVectorQueryMsg
          else env.search2 >>= formatResults) = Except.ok r
    rw [if_neg (by simp), h2]
    show formatResults hits = Except.ok r
    exact hfmt
  rw [search_documents, hfail, hretry]

/-- C2 witness: filtered search down, unfiltered retry returns one
document; `search_documents` returns its formatted form. -/
theorem C2_witness : search_documents envC2 "q" 3 = Except.ok [resC2] :=
  C2_unfiltered_fallback envC2 "q" 3 "primary down" [hitC2] [resC2] rfl rfl rfl rfl

/-- C3 counterexample: when embedding generation fails, the error that
`search_documents` surfaces is NOT a bare undefined-variable error — it is
the `Search failed:`-wrapped exception (the claim asserts the opposite).
The reference to the unbound `vector_query` is raised inside the inner
`try` of the fallback, so the inner handler catches it and re-raises it
wrapped, with the reference-error text as its message. -/
theorem C3_counterexample :
    (generate_embedding envC3 "What is the policy?").1
        = Except.error "Failed to generate embedding: connection refused"
    ∧ search_documents envC3 "What is the policy?" 3
        = Except.error ("Search failed: " ++ unboundVectorQueryMsg) :=
  ⟨rfl, rfl⟩

/-- C3 (amended): if embedding generation fails inside `search_documents`,
the fallback path fails by referencing the `vector_query` variable defined
only in the failed first branch — but that undefined-variable error is
caught by the fallback handler and surfaced wrapped as the
`Search failed:` exception whose message is the reference error, for every
environment and query. -/
theorem C3_embed_failure_reference_error (env : Env) (q : String) (t : Nat) (e : PyErr)
    (h : (generate_embedding env q).1 = Except.error e) :
    search_documents env q t
      = Except.error ("Search failed: " ++ unboundVectorQueryMsg) := by
  have hmain := searchTryMain_of_embed_error h
  have hretry : searchRetry env q = Except.error unboundVectorQueryMsg := by
    rw [searchRetry, embedFails_true_of_error h]
    rfl
  rw [search_documents, hmain, hretry]

/-- C3 witness: the amended statement at the concrete failing environment. -/
theorem C3_witness :
    search_documents envC3 "q" 3
      = Except.error ("Search failed: " ++ unboundVectorQueryMsg) :=
  C3_embed_failure_reference_error envC3 "q" 3
    "Failed to generate embedding: connection refused" rfl

/-- C8: `generate_embedding` issues exactly one HTTP call for every
non-empty text, and when the call succeeds with a response carrying a
value at `data[0].embedding`, returns that value unchanged; for empty text
it raises `ValueError` (`InvalidInput`) without making any network call
(zero requests issued). -/
theorem C8_generate_embedding_contract (env : Env) (text : String) :
    (text = "" →
      generate_embedding env text = (Except.error "Input text cannot be empty", 0))
    ∧ (text ≠ "" → (generate_embedding env text).2 = 1)
    ∧ (∀ j v, text ≠ "" → env.embedPost = Except.ok j → embExtract j = Except.ok v →
        (generate_embedding env text).1 = Except.ok v) := by
  refine ⟨?_, ?_, ?_⟩
  · intro h
    rw [generate_embedding, if_pos h]
  · intro h
    rw [generate_embedding, if_neg h]
    cases env.embedPost with
    | error e => rfl
    | ok j =>
      cases he : embExtract j with
      | error e => simp [he]
      | ok v => simp [he]
  · intro j v h hp he
    rw [generate_embedding, if_neg h, hp]
    simp [he]

/-- C8 witness: the empty-text and the well-formed-response branches at a
concrete environment. -/
theorem C8_witness :
    generate_embedding envC8 "" = (Except.error "Input text cannot be empty", 0)
    ∧ (generate_embedding envC8 "hello").2 = 1
    ∧ (generate_embedding envC8 "hello").1 = Except.ok embVec :=
  ⟨(C8_generate_embedding_contract envC8 "").1 rfl,
   (C8_generate_embedding_contract envC8 "hello").2.1 (by decide),
   (C8_generate_embedding_contract envC8 "hello").2.2 goodEmbedJson embVec
     (by decide) rfl rfl⟩

/-- C9: whenever `search_documents` returns an empty sequence of results,
`query_handbook` returns exactly the fixed no-information message, as a
normal terminal response. -/
theorem C9_empty_results_message (env : Env) (q : String) (t : Nat)
    (h : search_documents env q t = Except.ok []) :
    query_handbook env q t = "No relevant information found in the Contoso Handbook." := by
  rw [query_handbook, h]
  rfl

/-- C9 witness: a working flow whose filtered search returns no
documents. -/
theorem C9_witness :
    query_handbook envC9 "q" 3
      = "No relevant information found in the Contoso Handbook." :=
  C9_empty_results_message envC9 "q" 3 rfl

/-- C4: if the chat-completion call fails (HTTP error, or a response not
carrying a string at `choices[0].message.content`),
`rephrase_with_chat_model` returns the original content unchanged; on
success it returns the generated text stripped of leading and trailing
whitespace; hence when search succeeded with results but chat failed,
`query_handbook` still returns header, the original (non-rephrased)
concatenated content, and the sources — it does not raise. -/
theorem C4_rephrase_failure_is_silent (env : Env) (content q : String) (t : Nat) :
    (∀ e, chatOutcome env = Except.error e →
        rephrase_with_chat_model env content q = content)
    ∧ (∀ s, chatOutcome env = Except.ok s →
        rephrase_with_chat_model env content q = pyStripStr s)
    ∧ (∀ results e, search_documents env q t = Except.ok results → results ≠ [] →
        chatOutcome env = Except.error e →
        query_handbook env q t
          = query_handbook_header q
            ++ pyJoin "\n\n" (results.map (processResultContent (pyLowerStr q)))
            ++ "\n\n**Sources:**\n" ++ sourcesOf 1 results) := by
  refine ⟨?_, ?_, ?_⟩
  · intro e he
    rw [rephrase_with_chat_model, he]
  · intro s hs
    rw [rephrase_with_chat_model, hs]
  · intro results e hsd hne hchat
    have hem : results.isEmpty = false := by
      cases results with
      | nil => exact absurd rfl hne
      | cons a l => rfl
    rw [query_handbook, hsd]
    simp only [hem, Bool.false_eq_true, if_false, rephrase_with_chat_model, hchat]

/-- C4 witness: search succeeds with one document, the chat call fails;
the body of the final answer is the unrephrased content. -/
theorem C4_witness :
    rephrase_with_chat_model envC4 "original text" "q" = "original text"
    ∧ query_handbook envC4 "q" 3
        = query_handbook_header "q"
          ++ pyJoin "\n\n" ([resC4].map (processResultContent (pyLowerStr "q")))
          ++ "\n\n**Sources:**\n" ++ sourcesOf 1 [resC4] :=
  ⟨(C4_rephrase_failure_is_silent envC4 "original text" "q" 3).1 "chat unreachable" rfl,
   (C4_rephrase_failure_is_silent envC4 "x" "q" 3).2.2 [resC4] "chat unreachable" rfl
     (by simp) rfl⟩

/-- C5: header selection is deterministic and strictly first-match-wins
over the five fixed topic groups in source order (data security,
vacation/PTO, confidentiality, remote work, benefits): for every query the
chosen header is the header of the first group of `headerGroups` having a
keyword contained in the lowercased query — so a query matching several
groups gets the earliest one — and a query matching no group gets the
generic header naming the query. -/
theorem C5_header_first_match_wins (query : String) :
    query_handbook_header query =
      (match headerGroups.find?
          (fun g => g.1.any (fun k => pyIn k (pyLowerStr query))) with
       | some g => g.2
       | none => "**Information from Contoso Employee Handbook regarding \x27"
           ++ query ++ "\x27:**\n\n") := by
  rw [query_handbook_header, headerGroups]
  cases h1 : (["data security", "security policy", "information security"] : List String).any
      (fun k => pyIn k (pyLowerStr query)) <;>
    cases h2 : (["vacation", "pto", "time off", "leave"] : List String).any
      (fun k => pyIn k (pyLowerStr query)) <;>
    cases h3 : (["confidential", "confidentiality"] : List String).any
      (fun k => pyIn k (pyLowerStr query)) <;>
    cases h4 : (["remote work", "work from home", "telework"] : List String).any
      (fun k => pyIn k (pyLowerStr query)) <;>
    cases h5 : (["benefits", "health", "insurance"] : List String).any
      (fun k => pyIn k (pyLowerStr query)) <;>
    simp [List.find?, h1, h2, h3, h4, h5]

/-- C6 counterexample: the query `information security` matches the
header topic group for data security (first group of `headerGroups`, and
the chosen header is the data-security one), yet the content of its
results is NOT narrowed: `query_handbook` concatenates `cC6` unchanged,
although narrowing it with the security keyword list would have changed
it.  The narrowing condition is narrower than the header group: it tests
only `data security` and `security policy`. -/
theorem C6_counterexample :
    query_handbook_header "information security"
        = "**Contoso Data Security Policy Information:**\n\n"
    ∧ query_handbook envC6 "information security" 3
        = "**Contoso Data Security Policy Information:**\n\n" ++ cC6
          ++ "\n\n**Sources:**\n" ++ "- Employee Handbook Section 1\n"
    ∧ extract_relevant_sentences cC6 securityKeywords ≠ cC6 := by
  refine ⟨rfl, rfl, ?_⟩
  decide

/-- C6 (amended): per-result narrowing in `query_handbook` is governed not
by the header topic groups but by strictly narrower substring tests on the
lowercased query: the security keyword list is applied exactly when it
contains `data security` or `security policy`, else the vacation keyword
list exactly when it contains `vacation` or `pto`, and otherwise the
content is concatenated unchanged — shown end-to-end on an environment
whose search returns a single document with content `c` and whose chat
call fails (so the body is the concatenated content itself). -/
theorem C6_narrowing_conditions (q c : String) (hq : q ≠ "") :
    query_handbook (oneHitEnv c) q 3 =
      query_handbook_header q ++
      (if pyIn "data security" (pyLowerStr q) || pyIn "security policy" (pyLowerStr q) then
        (if extract_relevant_sentences c securityKeywords = "" then c
         else extract_relevant_sentences c securityKeywords)
       else if pyIn "vacation" (pyLowerStr q) || pyIn "pto" (pyLowerStr q) then
        (if extract_relevant_sentences c vacationKeywords = "" then c
         else extract_relevant_sentences c vacationKeywords)
       else c)
      ++ "\n\n**Sources:**\n" ++ "- Employee Handbook Section 1\n" := by
  have hg : (generate_embedding (oneHitEnv c) q).1 = Except.ok embVec := by
    rw [generate_embedding, if_neg hq]
    rfl
  have hmain : searchTryMain (oneHitEnv c) q
      = Except.ok [[("score", "1.0"), ("content", c)]] := by
    rw [searchTryMain]
    show ((generate_embedding (oneHitEnv c) q).1
        >>= fun _ => (oneHitEnv c).search1 >>= formatResults)
        = Except.ok [[("score", "1.0"), ("content", c)]]
    rw [hg]
    rfl
  have hsd : search_documents (oneHitEnv c) q 3
      = Except.ok [[("score", "1.0"), ("content", c)]] := by
    rw [search_documents, hmain]
  have hchat : chatOutcome (oneHitEnv c) = Except.error "chat unreachable" := rfl
  have hsrc : sourcesOf 1 [[("score", "1.0"), ("content", c)]]
      = "- Employee Handbook Section 1\n" := rfl
  rw [query_handbook, hsd]
  simp only [List.isEmpty_cons, Bool.false_eq_true, if_false, List.map_cons, List.map_nil,
    pyJoin_single, rephrase_with_chat_model, hchat, hsrc, processResultContent,
    show (List.lookup "content" [("score", "1.0"), ("content", c)] : Option String)
      = some c from rfl,
    Option.getD_some, ne_eq, ite_not]

/-- C6 witness: the amended statement applied to a vacation query, where
the vacation narrowing fires. -/
theorem C6_witness :
    query_handbook (oneHitEnv "Take days off. Unrelated.") "vacation" 3
      = query_handbook_header "vacation"
        ++ extract_relevant_sentences "Take days off. Unrelated." vacationKeywords
        ++ "\n\n**Sources:**\n" ++ "- Employee Handbook Section 1\n" := by
  rw [C6_narrowing_conditions "vacation" "Take days off. Unrelated." (by decide)]
  rfl

/-- C7: `extract_relevant_sentences` splits the content on the period
character, strips each piece, keeps (case-insensitively) the pieces
containing any supplied keyword in their original order, joins at most the
first three with `". "` plus a trailing period, and returns the original
content unchanged when no piece matches; in particular the two concrete
evaluations of the spec hold. -/
theorem C7_extract_relevant_sentences_spec :
    extract_relevant_sentences
        "Employees get 15 days PTO. Submit requests via the portal. Unrelated sentence."
        ["days", "request"]
      = "Employees get 15 days PTO. Submit requests via the portal."
    ∧ extract_relevant_sentences "No matching keywords here." ["zzz"]
      = "No matching keywords here."
    ∧ ∀ (content : String) (keywords : List String),
        extract_relevant_sentences content keywords =
          (if (((splitDot content.data).map stripChars).filter
                (sentenceMatches (keywords.map String.data))).isEmpty
           then content
           else String.mk (joinSep ('.' :: ' ' :: [])
              ((((splitDot content.data).map stripChars).filter
                  (sentenceMatches (keywords.map String.data))).take 3)
              ++ ('.' :: []))) := by
  refine ⟨rfl, rfl, ?_⟩
  intro content keywords
  rw [extract_relevant_sentences, extractRel, keptSentences]
  split
  · rfl
  · rfl

/-- C10: `extract_relevant_sentences` is idempotent: for every content and
every list of non-empty keywords, applying it to its own output with the
same keywords returns that output unchanged — in the match case every
sentence of the joined output still contains a keyword and there are at
most three of them, and in the no-match case the content passes
through. -/
theorem C10_extract_idempotent (content : String) (keywords : List String)
    (hk : ∀ k ∈ keywords, k ≠ "") :
    extract_relevant_sentences (extract_relevant_sentences content keywords) keywords
      = extract_relevant_sentences content keywords := by
  have hk2 : ∀ k ∈ keywords.map String.data, k ≠ [] := by
    intro k hkm
    obtain ⟨s, hs, rfl⟩ := List.mem_map.mp hkm
    intro hnil
    exact hk s hs (congrArg String.mk hnil)
  exact congrArg String.mk (extractRel_idem content.data (keywords.map String.data) hk2)

/-- C10 witness: idempotence at a concrete content and keyword list. -/
theorem C10_witness :
    extract_relevant_sentences
        (extract_relevant_sentences "Rules apply here. Other text. More rules." ["rule"])
        ["rule"]
      = extract_relevant_sentences "Rules apply here. Other text. More rules." ["rule"] :=
  C10_extract_idempotent "Rules apply here. Other text. More rules." ["rule"] (by decide)
